import Mathlib

/-!
Shallow embedding of the "Y2K desktop" board application.

The repository holds three variants of the same React component:
- `src/App.tsx` (notes + audio only, no stickers/trash/AI),
- `src/unnamed/part_000` lines 1-531 (variant A: full app),
- `src/unnamed/part_000` lines 533-723 (variant B: full app, different AI client).

Strings of the source are modelled as `List Char`; JS numbers used for
coordinates are modelled as exact rationals `ℚ`; the random source
`Math.random()` is an explicit parameter `r` with `0 ≤ r < 1`.
-/

/-- The cursor glyph appended during the typewriter reveal. -/
def cursorGlyph : Char := '█'

/-- `Card` mirrors the `Card` type of `part_000` (variant A):
`{ id, text, x, y, title? }`. -/
structure Card where
  id : ℕ
  text : List Char
  x : ℚ
  y : ℚ
  title : Option (List Char)
  deriving DecidableEq, Repr

/-- `Sticker` mirrors the `Sticker` type of `part_000`:
`{ id, src, x, y, animation }`. -/
structure Sticker where
  id : ℕ
  src : List Char
  x : ℚ
  y : ℚ
  animation : List Char
  deriving DecidableEq, Repr

/- ------------------------------------------------------------------
Typewriter sequencer (`startPrint` typing loop, part_000 lines 94-102,
App.tsx lines 61-69, variant B lines 604-609).
The loop body at index `i` (0 ≤ i ≤ length) computes
`userInput.substring(0, i) + (i < userInput.length ? cursor : "")`.
------------------------------------------------------------------ -/

/-- Text displayed at reveal step `i`:
`s.substring(0, i) + (i < s.length ? block-cursor : "")`. -/
def revealText (s : List Char) (i : ℕ) : List Char :=
  s.take i ++ (if i < s.length then [cursorGlyph] else [])

/-- The sequence of texts written by the loop `for i in 0..=s.length`. -/
def revealSteps (s : List Char) : List (List Char) :=
  (List.range (s.length + 1)).map (revealText s)

/-- `setCards(prev => prev.map(c => c.id === id ? { ...c, text } : c))`. -/
def updateCardText (id : ℕ) (t : List Char) (cards : List Card) : List Card :=
  cards.map (fun c => if c.id = id then { c with text := t } else c)

/-- Running the whole typing loop over a board: each step writes its text
into the card with the given id. -/
def runTypewriter (id : ℕ) (s : List Char) (cards : List Card) : List Card :=
  (revealSteps s).foldl (fun acc t => updateCardText id t acc) cards

/-- Step indices at which the user loop plays a click:
`if (i < userInput.length) playClick(audioCtx)` (part_000 line 98). -/
def userClickSteps (s : List Char) : List ℕ :=
  (List.range (s.length + 1)).filter (fun i => decide (i < s.length))

/-- Step indices at which variant A's reply loop plays a click:
`if (i < replyText.length && i % 2 === 0) playClick` (part_000 line 134). -/
def replyClickStepsA (s : List Char) : List ℕ :=
  (List.range (s.length + 1)).filter (fun i => decide (i < s.length) && decide (i % 2 = 0))

/-- Step indices at which variant B's reply loop plays a click:
`if (i % 2 === 0) playClick` (part_000 line 632). -/
def replyClickStepsB (s : List Char) : List ℕ :=
  (List.range (s.length + 1)).filter (fun i => decide (i % 2 = 0))

/-- `const userInput = inputText || "EMPTY_MSG.TXT"` (part_000 lines 81 and
594, App.tsx line 57): the empty string is the only falsy string. -/
def effectiveInput (inputText : List Char) : List Char :=
  if inputText.isEmpty then "EMPTY_MSG.TXT".toList else inputText

/- ------------------------------------------------------------------
Board state manager: add/remove operations.
------------------------------------------------------------------ -/

/-- `removeCard` (part_000 lines 145-147): `prev.filter(c => c.id !== id)`. -/
def removeCard (id : ℕ) (cards : List Card) : List Card :=
  cards.filter (fun c => c.id ≠ id)

/-- Sticker drag-to-trash removal: `prev.filter(s => s.id !== id)`. -/
def removeStickerById (id : ℕ) (stickers : List Sticker) : List Sticker :=
  stickers.filter (fun s => s.id ≠ id)

/-- `removeSticker` gesture (part_000 lines 200-205): removal only happens
when ctrl or meta is held. -/
def removeStickerGesture (ctrl meta : Bool) (id : ℕ) (stickers : List Sticker) :
    List Sticker :=
  if ctrl || meta then removeStickerById id stickers else stickers

/-- Spawn position of a user note (part_000 lines 85-86):
`Math.random() * 40 + 5`, with the random draw `r` explicit. -/
def userSpawnCoord (r : ℚ) : ℚ := r * 40 + 5

/-- Spawn position of a sticker (part_000 lines 179-180):
`Math.random() * 40 + 10`. -/
def stickerSpawnCoord (r : ℚ) : ℚ := r * 40 + 10

/-- Variant A reply-card x (part_000 line 123): `Math.min(x + 5, 70)`. -/
def replyXA (x : ℚ) : ℚ := min (x + 5) 70

/-- Variant A reply-card y (part_000 line 124): `Math.min(y + 15, 70)`. -/
def replyYA (y : ℚ) : ℚ := min (y + 15) 70

/-- Variant B reply-card x (part_000 line 626): `Math.min(x + 10, 70)`. -/
def replyXB (x : ℚ) : ℚ := min (x + 10) 70

/-- Variant B reply-card y (part_000 line 626): `Math.min(y + 15, 70)`. -/
def replyYB (y : ℚ) : ℚ := min (y + 15) 70

/- ------------------------------------------------------------------
Drag controller (part_000 lines 207-254 variant A, 644-665 variant B,
App.tsx lines 79-104).
------------------------------------------------------------------ -/

/-- The original target of the pointer-down event, as inspected by the
drag handlers: its tag name and its class list. -/
structure EvTarget where
  tagName : List Char
  classes : List (List Char)
  deriving DecidableEq, Repr

/-- `(e.target as HTMLElement).classList.contains('win-btn')`. -/
def hasWinBtnClass (t : EvTarget) : Bool :=
  t.classes.contains "win-btn".toList

/-- Variant A guard (part_000 line 209): the handler returns, arming no
listeners, when the target is a BUTTON or has the win-btn class; it arms
otherwise. `true` means a drag session is armed. -/
def dragArmsA (t : EvTarget) : Bool :=
  !(t.tagName = "BUTTON".toList || hasWinBtnClass t)

/-- Variant B guard (part_000 line 645): only the win-btn class is
checked. -/
def dragArmsB (t : EvTarget) : Bool :=
  !(hasWinBtnClass t)

/-- App.tsx handler (lines 79-104): no inspection of the target; the
listeners are always armed. -/
def dragArmsSimple (_t : EvTarget) : Bool :=
  true

/-- An axis-aligned rectangle as returned by `getBoundingClientRect`. -/
structure Rect where
  left : ℚ
  top : ℚ
  right : ℚ
  bottom : ℚ
  deriving DecidableEq, Repr

/-- The containment test of `onUp` (part_000 lines 236-241):
`x >= left && x <= right && y >= top && y <= bottom`. -/
def Rect.containsPoint (r : Rect) (px py : ℚ) : Bool :=
  decide (r.left ≤ px) && decide (px ≤ r.right) &&
    decide (r.top ≤ py) && decide (py ≤ r.bottom)

/-- Kind of dragged entity: `'card' | 'sticker'`. -/
inductive DragKind
  | card
  | sticker
  deriving DecidableEq, Repr

/-- The element's inline style that the drag mutates: position in pixels
and stacking order. -/
structure ElemStyle where
  left : ℚ
  top : ℚ
  z : ℕ
  deriving DecidableEq, Repr

/-- `onMove` (part_000 lines 219-224): absolute reposition from the drag
session's origin, `startLeft + (clientX - startX)` and likewise for top. -/
def onMove (startLeft startTop startX startY : ℚ) (st : ElemStyle)
    (cx cy : ℚ) : ElemStyle :=
  { st with left := startLeft + (cx - startX), top := startTop + (cy - startY) }

/-- `onUp` of variant A (part_000 lines 226-249): reset the z-index to the
resting layer, then, when a trash element exists (`trash : Option Rect`)
and the release point lies in its bounding box, delete the dragged entity
from its collection. The element's left/top are not written by `onUp`.
Returns the element style and the two collections after release. -/
def onUpA (kind : DragKind) (id : ℕ) (trash : Option Rect) (cx cy : ℚ)
    (st : ElemStyle) (cards : List Card) (stickers : List Sticker) :
    ElemStyle × List Card × List Sticker :=
  let st2 : ElemStyle := { st with z := match kind with | .card => 10 | .sticker => 5 }
  match trash with
  | none => (st2, cards, stickers)
  | some tr =>
    if tr.containsPoint cx cy then
      match kind with
      | .card => (st2, removeCard id cards, stickers)
      | .sticker => (st2, cards, removeStickerById id stickers)
    else (st2, cards, stickers)

/- ------------------------------------------------------------------
AI reply failure paths (part_000 lines 107-142 variant A, 613-640
variant B). The remote call is abstracted to its outcome; we model the
catch/finally effect on the cards collection and the isPrinting flag.
------------------------------------------------------------------ -/

/-- Text of variant B's sentinel error card (part_000 line 637). -/
def errCardText : List Char :=
  "FATAL ERROR: AI_OFFLINE\nCHECK VITE_GEMINI_API_KEY".toList

/-- Title of variant B's sentinel error card. -/
def errCardTitle : List Char := "⚠️ SYS_ERR.LOG".toList

/-- Variant A failure path (part_000 lines 138-142): the catch block only
logs; the finally block clears `isPrinting`. Result: (cards, isPrinting). -/
def aiFailA (cards : List Card) : List Card × Bool :=
  (cards, false)

/-- Variant B failure path (part_000 lines 635-640): the catch block
appends a sentinel card at (50, 50) with id `Date.now() + 2`; the finally
block clears `isPrinting`. `now` is the `Date.now()` value. -/
def aiFailB (now : ℕ) (cards : List Card) : List Card × Bool :=
  (cards ++ [{ id := now + 2, text := errCardText, x := 50, y := 50,
               title := some errCardTitle }], false)

/- ------------------------------------------------------------------
FX generator (part_000 lines 257-309). JS float arithmetic is modelled
over exact rationals; `canvas.width = img.width * scale` for the cited
scenario is exact.
------------------------------------------------------------------ -/

/-- `const maxDim = 300` (part_000 line 268). -/
def maxDim : ℚ := 300

/-- `scale = Math.min(1, maxDim / w, maxDim / h)` (part_000 line 269). -/
def fxScale (w h : ℚ) : ℚ :=
  min 1 (min (maxDim / w) (maxDim / h))

/-- `canvas.width = img.width * scale` (part_000 line 270). -/
def destW (w h : ℚ) : ℚ := w * fxScale w h

/-- `canvas.height = img.height * scale` (part_000 line 271). -/
def destH (w h : ℚ) : ℚ := h * fxScale w h

/-- `const ps = Math.max(1, pixelSize)` (part_000 line 280). -/
def effPixelSize (pixelSize : ℤ) : ℤ := max 1 pixelSize

/-- `smallCanvas.width = Math.ceil(w / ps)` (part_000 line 283). -/
def smallW (w h : ℚ) (pixelSize : ℤ) : ℤ :=
  ⌈destW w h / (effPixelSize pixelSize : ℚ)⌉

/-- `smallCanvas.height = Math.ceil(h / ps)` (part_000 line 284). -/
def smallH (w h : ℚ) (pixelSize : ℤ) : ℤ :=
  ⌈destH w h / (effPixelSize pixelSize : ℚ)⌉

/-- One compositing operation performed on the destination canvas. -/
inductive FxOp
  | clearRect
  | drawSmallUpscaled (mode : List Char)
  | fillRect (color : List Char) (mode : List Char)
  deriving DecidableEq, Repr

/-- The no-tint sentinel: `'#ffffff'` (part_000 lines 71 and 294). -/
def whiteSentinel : List Char := "#ffffff".toList

/-- The sequence of canvas operations after the small buffer is drawn
(part_000 lines 290-306): clear, nearest-neighbor upscale, and, only when
`fxColor !== '#ffffff'`, a source-atop flat fill followed by a multiply
redraw of the blocked image. -/
def fxOps (fxColor : List Char) : List FxOp :=
  [FxOp.clearRect, FxOp.drawSmallUpscaled "source-over".toList] ++
    (if fxColor ≠ whiteSentinel then
      [FxOp.fillRect fxColor "source-atop".toList,
       FxOp.drawSmallUpscaled "multiply".toList]
    else [])

/- ==================================================================
Theorems
================================================================== -/

/-- Helper: the step list is the cursor-suffixed strict prefixes followed
by the bare string. -/
theorem revealSteps_eq (s : List Char) :
    revealSteps s =
      (List.range s.length).map (fun i => s.take i ++ [cursorGlyph]) ++ [s] := by
  unfold revealSteps
  simp only [List.range_succ, List.map_append, List.map_cons, List.map_nil]
  congr 1
  · refine List.map_congr_left fun i hi => ?_
    have hlt : i < s.length := List.mem_range.mp hi
    simp [revealText, hlt]
  · simp [revealText]

/-- Helper: after `updateCardText`, every card carrying the target id
holds the written text. -/
theorem updateCardText_mem (id : ℕ) (t : List Char) (cards : List Card)
    (c : Card) (hc : c ∈ updateCardText id t cards) (hid : c.id = id) :
    c.text = t := by
  rcases List.mem_map.mp hc with ⟨a, -, ha⟩
  by_cases h : a.id = id
  · rw [if_pos h] at ha
    rw [← ha]
  · rw [if_neg h] at ha
    subst ha
    exact absurd hid h

/-- C2: the typewriter loop performs exactly `length S + 1` reveal steps;
step `i < length S` writes the prefix of length `i` followed by the cursor
glyph, and the final step writes `S` itself with no cursor remnant, so
after the loop the target card's text is exactly `S`. -/
theorem typewriter_reveal_spec (s : List Char) :
    (revealSteps s).length = s.length + 1 ∧
    revealSteps s =
      (List.range s.length).map (fun i => s.take i ++ [cursorGlyph]) ++ [s] ∧
    ∀ (id : ℕ) (cards : List Card) (c : Card),
      c ∈ runTypewriter id s cards → c.id = id → c.text = s := by
  refine ⟨by simp [revealSteps], revealSteps_eq s, ?_⟩
  intro id cards c hc hid
  unfold runTypewriter at hc
  rw [revealSteps_eq s, List.foldl_append, List.foldl_cons, List.foldl_nil] at hc
  exact updateCardText_mem id s _ c hc hid

/-- Witness for C2 at `S = "A"` on a board holding the target card. -/
theorem typewriter_reveal_spec_witness :
    (⟨7, "A".toList, 0, 0, none⟩ : Card).text = "A".toList :=
  (typewriter_reveal_spec "A".toList).2.2 7 [⟨7, [], 0, 0, none⟩]
    ⟨7, "A".toList, 0, 0, none⟩ (by decide) rfl

/-- C7: submitting "HI" yields exactly the three reveal texts
`█`, `H█`, `HI` in order with final text `HI`; the user loop clicks at
steps 0 and 1 only; variant A's reply loop clicks exactly at the even
character indices (every other character, never at the final step), and on
a two-character reply variant B clicks at steps 0 and 2. -/
theorem hi_scenario_spec :
    revealSteps "HI".toList = [[cursorGlyph], ['H', cursorGlyph], ['H', 'I']] ∧
    (revealSteps "HI".toList).length = 3 ∧
    userClickSteps "HI".toList = [0, 1] ∧
    replyClickStepsA "HI".toList = [0] ∧
    replyClickStepsB "HI".toList = [0, 2] ∧
    ∀ s : List Char,
      replyClickStepsA s = (List.range s.length).filter (fun i => decide (i % 2 = 0)) := by
  refine ⟨by decide, by decide, by decide, by decide, by decide, ?_⟩
  intro s
  unfold replyClickStepsA
  simp only [List.range_succ, List.filter_append]
  have h1 : (List.range s.length).filter
        (fun i => decide (i < s.length) && decide (i % 2 = 0)) =
      (List.range s.length).filter (fun i => decide (i % 2 = 0)) := by
    refine List.filter_congr fun i hi => ?_
    simp [List.mem_range.mp hi]
  have h2 : ([s.length].filter
        (fun i => decide (i < s.length) && decide (i % 2 = 0))) = [] := by
    simp
  rw [h1, h2, List.append_nil]

/-- C10: submitting with the input text empty substitutes the fallback
"EMPTY_MSG.TXT", and the final reveal step displays exactly that
fallback. -/
theorem empty_input_fallback :
    effectiveInput [] = "EMPTY_MSG.TXT".toList ∧
    (revealSteps (effectiveInput [])).getLast? = some "EMPTY_MSG.TXT".toList ∧
    effectiveInput "HI".toList = "HI".toList := by
  refine ⟨rfl, by decide, rfl⟩

/-- C8: removing a nonexistent id from the cards or the stickers
collection leaves it unchanged and the card removal is idempotent. -/
theorem remove_nonexistent_noop (id : ℕ) (cards : List Card)
    (stickers : List Sticker) (ctrl meta : Bool)
    (hc : ∀ c ∈ cards, c.id ≠ id) (hs : ∀ s ∈ stickers, s.id ≠ id) :
    removeCard id cards = cards ∧
    removeStickerById id stickers = stickers ∧
    removeStickerGesture ctrl meta id stickers = stickers ∧
    removeCard id (removeCard id cards) = removeCard id cards := by
  have hcards : removeCard id cards = cards := by
    refine List.filter_eq_self.mpr fun c hcm => ?_
    simpa using hc c hcm
  have hstick : removeStickerById id stickers = stickers := by
    refine List.filter_eq_self.mpr fun s hsm => ?_
    simpa using hs s hsm
  refine ⟨hcards, hstick, ?_, ?_⟩
  · unfold removeStickerGesture
    split
    · exact hstick
    · rfl
  · refine List.filter_eq_self.mpr fun c hcm => ?_
    exact (List.mem_filter.mp hcm).2

/-- Witness for C8: removing id 2 from a board whose only card has id 1
changes nothing. -/
theorem remove_nonexistent_noop_witness :
    removeCard 2 [(⟨1, [], 0, 0, none⟩ : Card)] = [⟨1, [], 0, 0, none⟩] ∧
    removeStickerById 2 ([] : List Sticker) = [] ∧
    removeStickerGesture true false 2 ([] : List Sticker) = [] ∧
    removeCard 2 (removeCard 2 [(⟨1, [], 0, 0, none⟩ : Card)]) =
      removeCard 2 [(⟨1, [], 0, 0, none⟩ : Card)] :=
  remove_nonexistent_noop 2 [⟨1, [], 0, 0, none⟩] [] true false
    (by intro c hcm; rw [List.mem_singleton] at hcm; subst hcm; decide)
    (by intro s hsm; exact absurd hsm (List.not_mem_nil s))

/-- C1: on release inside the trash bounding box the dragged entity is
removed from its collection and the other collection is untouched; on
release outside (or when no trash element exists, as in App.tsx) both
collections are unchanged; in every case `onUp` does not write the
element's left/top, so the entity keeps the position set by the last
`onMove`. -/
theorem drag_release_trash_spec (id : ℕ) (tr : Rect) (cx cy : ℚ)
    (st : ElemStyle) (cards : List Card) (stickers : List Sticker) :
    (tr.containsPoint cx cy = true →
      (onUpA .card id (some tr) cx cy st cards stickers).2.1 = removeCard id cards ∧
      (∀ c ∈ (onUpA .card id (some tr) cx cy st cards stickers).2.1, c.id ≠ id) ∧
      (onUpA .card id (some tr) cx cy st cards stickers).2.2 = stickers ∧
      (onUpA .sticker id (some tr) cx cy st cards stickers).2.2 =
        removeStickerById id stickers ∧
      (∀ s ∈ (onUpA .sticker id (some tr) cx cy st cards stickers).2.2, s.id ≠ id) ∧
      (onUpA .sticker id (some tr) cx cy st cards stickers).2.1 = cards) ∧
    (tr.containsPoint cx cy = false →
      ∀ kind, (onUpA kind id (some tr) cx cy st cards stickers).2.1 = cards ∧
        (onUpA kind id (some tr) cx cy st cards stickers).2.2 = stickers) ∧
    (∀ kind, (onUpA kind id none cx cy st cards stickers).2.1 = cards ∧
      (onUpA kind id none cx cy st cards stickers).2.2 = stickers) ∧
    (∀ kind trash,
      (onUpA kind id trash cx cy st cards stickers).1.left = st.left ∧
      (onUpA kind id trash cx cy st cards stickers).1.top = st.top) ∧
    (∀ startLeft startTop startX startY mx my,
      (onMove startLeft startTop startX startY st mx my).left =
        startLeft + (mx - startX) ∧
      (onMove startLeft startTop startX startY st mx my).top =
        startTop + (my - startY)) := by
  refine ⟨?_, ?_, ?_, ?_, ?_⟩
  · intro hin
    refine ⟨?_, ?_, ?_, ?_, ?_, ?_⟩
    · simp [onUpA, hin]
    · intro c hcm
      simp only [onUpA, hin, if_true] at hcm
      simpa using (List.mem_filter.mp hcm).2
    · simp [onUpA, hin]
    · simp [onUpA, hin]
    · intro s hsm
      simp only [onUpA, hin, if_true] at hsm
      simpa using (List.mem_filter.mp hsm).2
    · simp [onUpA, hin]
  · intro hout kind
    cases kind <;> simp [onUpA, hout]
  · intro kind
    cases kind <;> simp [onUpA]
  · intro kind trash
    cases trash with
    | none => cases kind <;> simp [onUpA]
    | some tr2 =>
      cases kind <;> simp only [onUpA] <;> split <;> simp
  · intro startLeft startTop startX startY mx my
    exact ⟨rfl, rfl⟩

/-- Witness for C1: a release at (5, 5) inside the trash box 0..10 × 0..10
deletes the dragged card with id 1, and a release at (50, 50) outside it
leaves the board unchanged. -/
theorem drag_release_trash_spec_witness :
    (onUpA .card 1 (some ⟨0, 0, 10, 10⟩) 5 5 ⟨0, 0, 100⟩
        [(⟨1, [], 0, 0, none⟩ : Card)] []).2.1 = [] ∧
    (onUpA .card 1 (some ⟨0, 0, 10, 10⟩) 50 50 ⟨0, 0, 100⟩
        [(⟨1, [], 0, 0, none⟩ : Card)] []).2.1 = [⟨1, [], 0, 0, none⟩] := by
  constructor
  · have h := (drag_release_trash_spec 1 ⟨0, 0, 10, 10⟩ 5 5 ⟨0, 0, 100⟩
      [⟨1, [], 0, 0, none⟩] []).1 (by decide)
    rw [h.1]
    decide
  · have h := ((drag_release_trash_spec 1 ⟨0, 0, 10, 10⟩ 50 50 ⟨0, 0, 100⟩
      [⟨1, [], 0, 0, none⟩] []).2.1 (by decide)) DragKind.card
    exact h.1

/-- C4 counterexample: the App.tsx drag handler performs no target
inspection, so a pointer-down whose original target carries the win-btn
class still arms a drag session there. -/
theorem drag_guard_counterexample :
    dragArmsSimple ⟨"DIV".toList, ["win-btn".toList]⟩ = true ∧
    hasWinBtnClass ⟨"DIV".toList, ["win-btn".toList]⟩ = true ∧
    dragArmsB ⟨"BUTTON".toList, []⟩ = true := by
  refine ⟨rfl, by decide, by decide⟩

/-- C4 amended: variant A never arms a drag for a BUTTON or win-btn
target; variant B blocks only win-btn targets; the App.tsx handler arms
unconditionally. -/
theorem drag_guard_spec (t : EvTarget) :
    (t.tagName = "BUTTON".toList ∨ "win-btn".toList ∈ t.classes →
      dragArmsA t = false) ∧
    ("win-btn".toList ∈ t.classes → dragArmsB t = false) ∧
    dragArmsSimple t = true := by
  refine ⟨?_, ?_, rfl⟩
  · rintro (htag | hcls)
    · simp [dragArmsA, htag]
    · have : hasWinBtnClass t = true := by simpa [hasWinBtnClass] using hcls
      simp [dragArmsA, this]
  · intro hcls
    have : hasWinBtnClass t = true := by simpa [hasWinBtnClass] using hcls
    simp [dragArmsB, this]

/-- Witness for C4: variant A refuses to arm on a BUTTON target and on a
win-btn target. -/
theorem drag_guard_spec_witness :
    dragArmsA ⟨"BUTTON".toList, []⟩ = false ∧
    dragArmsA ⟨"DIV".toList, ["win-btn".toList]⟩ = false ∧
    dragArmsB ⟨"DIV".toList, ["win-btn".toList]⟩ = false :=
  ⟨(drag_guard_spec ⟨"BUTTON".toList, []⟩).1 (Or.inl rfl),
   (drag_guard_spec ⟨"DIV".toList, ["win-btn".toList]⟩).1
     (Or.inr (by decide)),
   (drag_guard_spec ⟨"DIV".toList, ["win-btn".toList]⟩).2.1 (by decide)⟩

/-- C3 counterexample: in variant A a failed AI call adds no note at all —
starting from an empty board the catch/finally path leaves the board
empty, so no visible sentinel/error note is produced. -/
theorem ai_failure_counterexample :
    (aiFailA []).1 = [] ∧ (aiFailA []).2 = false :=
  ⟨rfl, rfl⟩

/-- C3 amended: on AI failure both variants clear the busy flag; variant B
additionally appends exactly one sentinel error card (at (50,50) with the
error text), while variant A leaves the board unchanged, only logging. -/
theorem ai_failure_spec (cards : List Card) (now : ℕ) :
    (aiFailA cards).2 = false ∧
    (aiFailA cards).1 = cards ∧
    (aiFailB now cards).2 = false ∧
    (aiFailB now cards).1 =
      cards ++ [{ id := now + 2, text := errCardText, x := 50, y := 50,
                  title := some errCardTitle }] ∧
    (aiFailB now cards).1.length = cards.length + 1 := by
  refine ⟨rfl, rfl, rfl, rfl, by simp [aiFailB]⟩

/-- C5: a 1000×500 source yields scale 3/10 and a 300×150 destination
canvas; the aspect ratio is preserved in general; and for any block size
ps ≥ 1 the intermediate buffer is ⌈destW/ps⌉ × ⌈destH/ps⌉. -/
theorem fx_dims_spec (ps : ℤ) (hps : 1 ≤ ps) :
    fxScale 1000 500 = 3 / 10 ∧
    destW 1000 500 = 300 ∧
    destH 1000 500 = 150 ∧
    (∀ w h : ℚ, destW w h * h = destH w h * w) ∧
    smallW 1000 500 ps = ⌈(300 : ℚ) / (ps : ℚ)⌉ ∧
    smallH 1000 500 ps = ⌈(150 : ℚ) / (ps : ℚ)⌉ := by
  have hscale : fxScale 1000 500 = 3 / 10 := by
    unfold fxScale maxDim
    norm_num [min_def]
  have hW : destW 1000 500 = 300 := by
    rw [destW, hscale]; norm_num
  have hH : destH 1000 500 = 150 := by
    rw [destH, hscale]; norm_num
  have hmax : effPixelSize ps = ps := by
    unfold effPixelSize; exact max_eq_right hps
  refine ⟨hscale, hW, hH, ?_, ?_, ?_⟩
  · intro w h
    unfold destW destH
    ring
  · rw [smallW, hmax, hW]
  · rw [smallH, hmax, hH]

/-- Witness for C5 at the default block size 8: the intermediate buffer
for the 1000×500 scenario is 38 × 19. -/
theorem fx_dims_spec_witness :
    smallW 1000 500 8 = 38 ∧ smallH 1000 500 8 = 19 := by
  have h := fx_dims_spec 8 (by decide)
  constructor
  · rw [h.2.2.2.2.1, Int.ceil_eq_iff]; norm_num
  · rw [h.2.2.2.2.2, Int.ceil_eq_iff]; norm_num

/-- C6: with the default white tint the canvas operation sequence is
exactly clear-then-upscale — it contains no fill and no multiply pass —
while any non-default tint appends the source-atop fill and the multiply
redraw. -/
theorem fx_tint_spec (c : List Char) (hc : c ≠ whiteSentinel) :
    fxOps whiteSentinel =
      [FxOp.clearRect, FxOp.drawSmallUpscaled "source-over".toList] ∧
    (∀ op ∈ fxOps whiteSentinel,
      (∀ color mode, op ≠ FxOp.fillRect color mode) ∧
      op ≠ FxOp.drawSmallUpscaled "multiply".toList) ∧
    fxOps c =
      [FxOp.clearRect, FxOp.drawSmallUpscaled "source-over".toList,
       FxOp.fillRect c "source-atop".toList,
       FxOp.drawSmallUpscaled "multiply".toList] := by
  have hwhite : fxOps whiteSentinel =
      [FxOp.clearRect, FxOp.drawSmallUpscaled "source-over".toList] := by
    simp [fxOps]
  refine ⟨hwhite, ?_, ?_⟩
  · intro op hop
    rw [hwhite] at hop
    rcases List.mem_cons.mp hop with h | h
    · subst h
      exact ⟨fun color mode => by simp, by simp⟩
    · rw [List.mem_singleton] at h
      subst h
      exact ⟨fun color mode => by simp, by decide⟩
  · simp [fxOps, hc]

/-- Witness for C6 at tint "#ff0000": the fill and multiply passes run. -/
theorem fx_tint_spec_witness :
    fxOps "#ff0000".toList =
      [FxOp.clearRect, FxOp.drawSmallUpscaled "source-over".toList,
       FxOp.fillRect "#ff0000".toList "source-atop".toList,
       FxOp.drawSmallUpscaled "multiply".toList] :=
  (fx_tint_spec "#ff0000".toList (by decide)).2.2

/-- C9: with the random draw r in [0,1), user-note spawn coordinates lie
in [5,45), sticker spawn coordinates lie in [10,50), and both variants'
reply-card coordinates are clamped into [5,70] whenever the user card's
coordinates are at least 5. -/
theorem spawn_bounds_spec (r x y : ℚ) (hr0 : 0 ≤ r) (hr1 : r < 1)
    (hx : 5 ≤ x) (hy : 5 ≤ y) :
    (5 ≤ userSpawnCoord r ∧ userSpawnCoord r < 45) ∧
    (10 ≤ stickerSpawnCoord r ∧ stickerSpawnCoord r < 50) ∧
    (5 ≤ replyXA x ∧ replyXA x ≤ 70) ∧
    (5 ≤ replyYA y ∧ replyYA y ≤ 70) ∧
    (5 ≤ replyXB x ∧ replyXB x ≤ 70) ∧
    (5 ≤ replyYB y ∧ replyYB y ≤ 70) := by
  have h40 : r * 40 < 40 := by nlinarith
  have h40p : 0 ≤ r * 40 := by positivity
  refine ⟨⟨?_, ?_⟩, ⟨?_, ?_⟩, ⟨?_, ?_⟩, ⟨?_, ?_⟩, ⟨?_, ?_⟩, ⟨?_, ?_⟩⟩
  · unfold userSpawnCoord; linarith
  · unfold userSpawnCoord; linarith
  · unfold stickerSpawnCoord; linarith
  · unfold stickerSpawnCoord; linarith
  · exact le_min (by linarith) (by norm_num)
  · exact min_le_right _ _
  · exact le_min (by linarith) (by norm_num)
  · exact min_le_right _ _
  · exact le_min (by linarith) (by norm_num)
  · exact min_le_right _ _
  · exact le_min (by linarith) (by norm_num)
  · exact min_le_right _ _

/-- Witness for C9 at r = 1/2 and a user card at (5, 5). -/
theorem spawn_bounds_spec_witness :
    ((5 : ℚ) ≤ userSpawnCoord (1 / 2) ∧ userSpawnCoord (1 / 2) < 45) ∧
    ((10 : ℚ) ≤ stickerSpawnCoord (1 / 2) ∧ stickerSpawnCoord (1 / 2) < 50) ∧
    ((5 : ℚ) ≤ replyXA 5 ∧ replyXA 5 ≤ 70) ∧
    ((5 : ℚ) ≤ replyYA 5 ∧ replyYA 5 ≤ 70) ∧
    ((5 : ℚ) ≤ replyXB 5 ∧ replyXB 5 ≤ 70) ∧
    ((5 : ℚ) ≤ replyYB 5 ∧ replyYB 5 ≤ 70) :=
  spawn_bounds_spec (1 / 2) 5 5 (by norm_num) (by norm_num) le_rfl le_rfl
